import Mathlib

/-!
Shallow embedding of the schema-translation core of `SAI/sai_api_gen.py`:
the key-type resolvers, the match-field resolver, the action-model builder
and the table classifier / schema assembler (`generate_sai_api`).

Python string primitives (`split`, `split(sep, 1)`, `replace`, `in`,
`lower`) are embedded as structurally recursive functions on `List Char`
with the exact Python semantics, so every definition is executable and
kernel-reducible.
-/

namespace SaiApiGen

/-- Python `s.split(c)` on characters: always returns a non-empty list;
splitting the empty string yields `[[]]`. -/
def charSplit (c : Char) : List Char → List (List Char)
  | [] => [[]]
  | x :: xs =>
    let r := charSplit c xs
    if x = c then [] :: r
    else
      match r with
      | [] => [[x]]
      | y :: ys => (x :: y) :: ys

/-- Python `s.split(c, 1)` restricted to the first occurrence: `none`
when `c` does not occur (Python would then return a 1-element list and a
2-target unpack would raise), otherwise the parts before and after the
first occurrence. -/
def charSplitOnce (c : Char) : List Char → Option (List Char × List Char)
  | [] => none
  | x :: xs =>
    if x = c then some ([], xs)
    else (charSplitOnce c xs).map (fun p => (x :: p.1, p.2))

/-- Python substring containment `pat in hay` on characters. -/
def containsSub (pat : List Char) : List Char → Bool
  | [] => pat.isEmpty
  | x :: xs => pat.isPrefixOf (x :: xs) || containsSub pat xs

/-- Python `s.split(c)` lifted to `String`. -/
def pySplit (s : String) (c : Char) : List String :=
  (charSplit c s.toList).map String.mk

/-- Python `pat in hay` lifted to `String`. -/
def strContains (hay pat : String) : Bool :=
  containsSub pat.toList hay.toList

/-- Python `s.replace('.', '_')` (single-character replacement). -/
def pyReplaceChar (a b : Char) (s : String) : String :=
  String.mk (s.toList.map (fun x => if x = a then b else x))

/-- Python `s.lower()` (ASCII-sufficient, as in the source's inputs). -/
def pyLower (s : String) : String :=
  String.mk (s.toList.map Char.toLower)

/-- Python `lst[-1]` of a `split('.')` result (never empty). -/
def lastDotSegment (s : String) : String :=
  (pySplit s '.').getLastD ""

/-- Error taxonomy of the generator: each constructor corresponds to one
of the `ValueError` / lookup-failure sites in the Python source. -/
inductive SaiGenError where
  | unsupportedWidth
  | invalidMatchTag
  | unsupportedMatchKind
  | malformedName
  | missingActionReference
  deriving DecidableEq, Repr

/-- Embeds `get_sai_key_type` (scalar mode): width bands with the 32-bit
IP-address and 48-bit MAC hint special cases. -/
def get_sai_key_type (key_size : Nat) (key_header key_field : String) :
    Except SaiGenError String :=
  if key_size = 1 then .ok "bool"
  else if key_size ≤ 8 then .ok "sai_uint8_t"
  else if key_size ≤ 16 then .ok "sai_uint16_t"
  else if key_size = 32 ∧ (strContains key_field "addr" || strContains key_header "ip") = true then
    .ok "sai_ip_address_t"
  else if key_size ≤ 32 then .ok "sai_uint32_t"
  else if key_size = 48 ∧ (strContains key_field "addr" || strContains key_header "mac") = true then
    .ok "sai_mac_t"
  else if key_size ≤ 64 then .ok "sai_uint64_t"
  else .error .unsupportedWidth

/-- Embeds `get_sai_lpm_type` (prefix mode). -/
def get_sai_lpm_type (key_size : Nat) (key_header key_field : String) :
    Except SaiGenError String :=
  if key_size = 32 ∧ (strContains key_field "addr" || strContains key_header "ip") = true then
    .ok "sai_ip_prefix_t"
  else .error .unsupportedWidth

/-- Embeds `get_sai_list_type` (list mode). -/
def get_sai_list_type (key_size : Nat) (key_header key_field : String) :
    Except SaiGenError String :=
  if key_size ≤ 8 then .ok "sai_u8_list_t"
  else if key_size ≤ 16 then .ok "sai_u16_list_t"
  else if key_size = 32 ∧ (strContains key_field "addr" || strContains key_header "ip") = true then
    .ok "sai_ip_address_list_t"
  else if key_size ≤ 32 then .ok "sai_u32_list_t"
  else if key_size ≤ 64 then .ok "sai_u64_list_t"
  else .error .unsupportedWidth

/-- Embeds `get_sai_range_list_type` (range-list mode). -/
def get_sai_range_list_type (key_size : Nat) (key_header key_field : String) :
    Except SaiGenError String :=
  if key_size ≤ 8 then .ok "sai_u8_range_list_t"
  else if key_size ≤ 16 then .ok "sai_u16_range_list_t"
  else if key_size = 32 ∧ (strContains key_field "addr" || strContains key_header "ip") = true then
    .ok "sai_ipaddr_range_list_t"
  else if key_size ≤ 32 then .ok "sai_u32_range_list_t"
  else if key_size ≤ 64 then .ok "sai_u64_range_list_t"
  else .error .unsupportedWidth

/-- Input match field: `name` is the raw `path:declaredName` string, plus
the bit-width and the optional `matchType` / `otherMatchType` tags
(an `Option` models presence of the JSON key). -/
structure MatchField where
  name : String
  bitwidth : Nat
  matchType : Option String := none
  otherMatchType : Option String := none
  deriving Repr, DecidableEq

/-- Input action parameter (`params[j]` of an action). -/
structure ActionParam where
  id : Nat
  name : String
  bitwidth : Nat
  deriving Repr, DecidableEq

/-- Input action: preamble id and dot-qualified preamble name, with an
optional parameter list (an absent `params` key is `none`). -/
structure ActionDef where
  id : Nat
  name : String
  params : Option (List ActionParam) := none
  deriving Repr, DecidableEq

/-- Input table: dot-qualified preamble name, match fields, and action
references (each reference is the referenced action id). -/
structure TableDef where
  name : String
  matchFields : List MatchField
  actionRefs : List Nat
  deriving Repr, DecidableEq

/-- Input program: the `tables` and `actions` collections. -/
structure Program where
  tables : List TableDef
  actions : List ActionDef
  deriving Repr, DecidableEq

/-- The single resolved type field of a key descriptor, named after its
match kind as in the Python dict (`sai_key_type`, `sai_lpm_type`,
`sai_list_type`, `sai_range_list_type`). -/
inductive SaiKeyTypeField where
  | keyType (t : String)
  | lpmType (t : String)
  | listType (t : String)
  | rangeListType (t : String)
  deriving Repr, DecidableEq

/-- Output key descriptor produced by `get_sai_key_data`. -/
structure SaiKeyData where
  sai_key_name : String
  match_type : String
  type_field : SaiKeyTypeField
  deriving Repr, DecidableEq

/-- Output parameter of a resolved action descriptor. -/
structure SaiActionParam where
  id : Nat
  name : String
  type : String
  deriving Repr, DecidableEq

/-- Resolved action descriptor (`all_actions[id]` value). -/
structure SaiActionData where
  id : Nat
  name : String
  params : List SaiActionParam
  deriving Repr, DecidableEq

/-- Output table descriptor. `is_object` is the literal string
`"true"` / `"false"`, exactly as the Python source stores it. -/
structure SaiTableData where
  name : String
  keys : List SaiKeyData
  actions : List SaiActionData
  is_object : String
  deriving Repr, DecidableEq

/-- Final model (`sai_api`): the ordered table descriptors. -/
structure SaiApi where
  tables : List SaiTableData
  deriving Repr, DecidableEq

/-- Sequences a list of fallible computations, exactly like the Python
loops that append each result and let the first exception abort the run. -/
def mapExcept (g : α → Except SaiGenError β) : List α → Except SaiGenError (List β)
  | [] => .ok []
  | x :: xs =>
    match g x with
    | .error e => .error e
    | .ok y =>
      match mapExcept g xs with
      | .error e => .error e
      | .ok ys => .ok (y :: ys)

/-- The effective (lowercased) match kind of a field: `otherMatchType`
when present, else `matchType`, else `none` — the tag-selection logic at
the top of `get_sai_key_data`. -/
def resolved_match_type (key : MatchField) : Option String :=
  match key.otherMatchType with
  | some s => some (pyLower s)
  | none => key.matchType.map pyLower

/-- The declared key name: the part after the colon in the field's
`name`, `none` when the name does not split into exactly two parts. -/
def declared_key_name (key : MatchField) : Option String :=
  match charSplit ':' key.name.toList with
  | [_, dn] => some (String.mk dn)
  | _ => none

/-- The `(key_header, key_field)` pair from the part before the colon:
a 3-segment path drops its leading struct segment, a 2-segment path is
used as is; any other shape is a Python unpack error. -/
def header_field_hints (full_key_name : List Char) :
    Except SaiGenError (String × String) :=
  match charSplit '.' full_key_name with
  | [_, h, f] => .ok (String.mk h, String.mk f)
  | [h, f] => .ok (String.mk h, String.mk f)
  | _ => .error .malformedName

/-- Embeds `get_sai_key_data`: split the raw name into path and declared
key name, extract the header/field hints, select the match tag, and
dispatch on the four recognized match kinds. -/
def get_sai_key_data (key : MatchField) : Except SaiGenError SaiKeyData :=
  match charSplit ':' key.name.toList with
  | [full_key_name, sai_key_name] =>
    match header_field_hints full_key_name with
    | .error e => .error e
    | .ok hints =>
      match resolved_match_type key with
      | none => .error .invalidMatchTag
      | some mt =>
        if mt = "exact" then
          match get_sai_key_type key.bitwidth hints.1 hints.2 with
          | .error e => .error e
          | .ok t => .ok ⟨String.mk sai_key_name, mt, .keyType t⟩
        else if mt = "lpm" then
          match get_sai_lpm_type key.bitwidth hints.1 hints.2 with
          | .error e => .error e
          | .ok t => .ok ⟨String.mk sai_key_name, mt, .lpmType t⟩
        else if mt = "list" then
          match get_sai_list_type key.bitwidth hints.1 hints.2 with
          | .error e => .error e
          | .ok t => .ok ⟨String.mk sai_key_name, mt, .listType t⟩
        else if mt = "range_list" then
          match get_sai_range_list_type key.bitwidth hints.1 hints.2 with
          | .error e => .error e
          | .ok t => .ok ⟨String.mk sai_key_name, mt, .rangeListType t⟩
        else .error .unsupportedMatchKind
  | _ => .error .malformedName

/-- Resolves one action parameter: typed in scalar mode with the
parameter name as both the header and the field hint. -/
def extract_one_param (p : ActionParam) : Except SaiGenError SaiActionParam :=
  match get_sai_key_type p.bitwidth p.name p.name with
  | .error e => .error e
  | .ok t => .ok ⟨p.id, p.name, t⟩

/-- Resolves one action of `extract_action_data`: the short name is the
last dot-segment of the preamble name; an absent `params` key yields the
empty parameter list. -/
def extract_one_action (a : ActionDef) : Except SaiGenError (Nat × SaiActionData) :=
  match a.params with
  | none => .ok (a.id, ⟨a.id, lastDotSegment a.name, []⟩)
  | some ps =>
    match mapExcept extract_one_param ps with
    | .error e => .error e
    | .ok params => .ok (a.id, ⟨a.id, lastDotSegment a.name, params⟩)

/-- Embeds `extract_action_data`: the id-keyed action map, represented
as the association list built in program order. -/
def extract_action_data (program : Program) :
    Except SaiGenError (List (Nat × SaiActionData)) :=
  mapExcept extract_one_action program.actions

/-- Python dict lookup `all_actions[action_id]`: the most recent binding
for the id wins; a missing id is an uncaught `KeyError`. -/
def lookup_action (m : List (Nat × SaiActionData)) (id : Nat) :
    Except SaiGenError SaiActionData :=
  match (m.filter (fun e => e.1 = id)).getLast? with
  | some e => .ok e.2
  | none => .error .missingActionReference

/-- `table.preamble.name.split('.', 1)`: the table name (everything after
the first dot) and the derived descriptor name (dots replaced by
underscores); a name with no dot is a Python unpack error. -/
def table_name_parts (t : TableDef) : Except SaiGenError (String × String) :=
  match charSplitOnce '.' t.name.toList with
  | some (_, rest) =>
    .ok (String.mk rest, pyReplaceChar '.' '_' (String.mk rest))
  | none => .error .malformedName

/-- Total variant of the derived descriptor name used for the skip check
(on any run that succeeds, every table's name has a dot, so the fallback
never matters). -/
def derived_name (t : TableDef) : String :=
  match table_name_parts t with
  | .ok (_, nm) => nm
  | .error _ => ""

/-- The intrinsic-object-id test: exactly one resolved key and its
declared name is the table base name followed by `_id`. -/
def is_intrinsic_id (base : String) (keys : List SaiKeyData) : Bool :=
  match keys with
  | [k] => k.sai_key_name = base ++ "_id"
  | _ => false

/-- The classification step at the end of the `generate_sai_api` loop
body: intrinsic-id tables and tables with more than five keys are
objects (the intrinsic id clears the key list), everything else is an
entry and gains the `_entry` suffix. -/
def classify_table (name base : String) (keys : List SaiKeyData)
    (actions : List SaiActionData) : SaiTableData :=
  if is_intrinsic_id base keys then ⟨name, [], actions, "true"⟩
  else if keys.length > 5 then ⟨name, keys, actions, "true"⟩
  else ⟨name ++ "_entry", keys, actions, "false"⟩

/-- The per-table body of the `generate_sai_api` loop (after the skip
check): resolve keys and actions, drop `NoAction`, classify. -/
def generate_sai_table (acts : List (Nat × SaiActionData)) (t : TableDef) :
    Except SaiGenError SaiTableData :=
  match table_name_parts t with
  | .error e => .error e
  | .ok parts =>
    match mapExcept get_sai_key_data t.matchFields with
    | .error e => .error e
    | .ok keys =>
      match mapExcept (lookup_action acts) t.actionRefs with
      | .error e => .error e
      | .ok ras =>
        .ok (classify_table parts.2 (lastDotSegment parts.1) keys
          (ras.filter (fun a => a.name ≠ "NoAction")))

/-- The table loop of `generate_sai_api`: derive each table's name, skip
it when the derived name is in `ignore_tables`, otherwise classify it and
keep declaration order. -/
def process_tables (acts : List (Nat × SaiActionData)) (ignore_tables : List String) :
    List TableDef → Except SaiGenError (List SaiTableData)
  | [] => .ok []
  | t :: ts =>
    match table_name_parts t with
    | .error e => .error e
    | .ok parts =>
      if ignore_tables.contains parts.2 then
        process_tables acts ignore_tables ts
      else
        match generate_sai_table acts t with
        | .error e => .error e
        | .ok d =>
          match process_tables acts ignore_tables ts with
          | .error e => .error e
          | .ok ds => .ok (d :: ds)

/-- Embeds `generate_sai_api`: build the action map, process the tables,
assemble the final model. -/
def generate_sai_api (program : Program) (ignore_tables : List String) :
    Except SaiGenError SaiApi :=
  match extract_action_data program with
  | .error e => .error e
  | .ok acts =>
    match process_tables acts ignore_tables program.tables with
    | .error e => .error e
    | .ok ts => .ok ⟨ts⟩

/-- A match field's raw name has the documented shape: it splits at the
colon into exactly two parts and the path part has two or three
dot-segments (so the header/field hint extraction succeeds). -/
def name_shape_ok (key : MatchField) : Bool :=
  match charSplit ':' key.name.toList with
  | [full, _] =>
    match header_field_hints full with
    | .ok _ => true
    | .error _ => false
  | _ => false

/-- Concrete fixture for the intrinsic-id classification: the spec's
worked `ingress.port` example. -/
def portTable : TableDef :=
  ⟨"ingress.port", [⟨"hdr.port.port_id:port_id", 16, some "exact", none⟩], []⟩

/-- Concrete fixture with an intrinsic-id key under `lpm` match kind. -/
def meterTable : TableDef :=
  ⟨"ingress.meter", [⟨"hdr.ipv4.dst_addr:meter_id", 32, some "lpm", none⟩], []⟩

/-- Concrete fixture whose table references the `NoAction` sentinel
(action id 1) alongside an ordinary action (id 2). -/
def noActionProgram : Program :=
  ⟨[⟨"ingress.t1", [⟨"h.f:k", 8, some "exact", none⟩], [1, 2]⟩],
   [⟨1, "c.NoAction", none⟩, ⟨2, "c.drop", none⟩]⟩

/-- Concrete fixture with one excluded and one kept table. -/
def exclusionProgram : Program :=
  ⟨[⟨"ingress.skip_me", [], []⟩, ⟨"ingress.keep", [], []⟩], []⟩

/-- Concrete fixture with both a `matchType` and an `otherMatchType`
tag on the same field. -/
def bothTagsField : MatchField :=
  ⟨"ipv4.dst:k", 32, some "exact", some "LPM"⟩

theorem mapExcept_nil_ok {g : α → Except SaiGenError β} {ys : List β}
    (h : mapExcept g [] = .ok ys) : ys = [] := by
  unfold mapExcept at h
  cases h
  rfl

theorem mapExcept_cons_ok {g : α → Except SaiGenError β} {x : α} {xs : List α}
    {ys : List β} (h : mapExcept g (x :: xs) = .ok ys) :
    ∃ y ys2, g x = .ok y ∧ mapExcept g xs = .ok ys2 ∧ ys = y :: ys2 := by
  unfold mapExcept at h
  cases hy : g x with
  | error e => rw [hy] at h; exact absurd h (by simp)
  | ok y =>
    rw [hy] at h
    cases hys : mapExcept g xs with
    | error e => rw [hys] at h; exact absurd h (by simp)
    | ok ys2 =>
      rw [hys] at h
      cases h
      exact ⟨y, ys2, rfl, rfl, rfl⟩

theorem mapExcept_ok_length {g : α → Except SaiGenError β} {xs : List α}
    {ys : List β} (h : mapExcept g xs = .ok ys) : ys.length = xs.length := by
  induction xs generalizing ys with
  | nil => rw [mapExcept_nil_ok h]; rfl
  | cons x xs ih =>
    obtain ⟨y, ys2, _, hys, rfl⟩ := mapExcept_cons_ok h
    simp [ih hys]

theorem get_sai_key_type_error_eq {w : Nat} {hdr fld : String} {e : SaiGenError}
    (h : get_sai_key_type w hdr fld = .error e) : e = .unsupportedWidth := by
  unfold get_sai_key_type at h
  repeat' split at h
  all_goals simp_all

theorem get_sai_lpm_type_error_eq {w : Nat} {hdr fld : String} {e : SaiGenError}
    (h : get_sai_lpm_type w hdr fld = .error e) : e = .unsupportedWidth := by
  unfold get_sai_lpm_type at h
  repeat' split at h
  all_goals simp_all

theorem get_sai_list_type_error_eq {w : Nat} {hdr fld : String} {e : SaiGenError}
    (h : get_sai_list_type w hdr fld = .error e) : e = .unsupportedWidth := by
  unfold get_sai_list_type at h
  repeat' split at h
  all_goals simp_all

theorem get_sai_range_list_type_error_eq {w : Nat} {hdr fld : String} {e : SaiGenError}
    (h : get_sai_range_list_type w hdr fld = .error e) : e = .unsupportedWidth := by
  unfold get_sai_range_list_type at h
  repeat' split at h
  all_goals simp_all

theorem get_sai_key_data_ok_declared {key : MatchField} {k : SaiKeyData}
    (h : get_sai_key_data key = .ok k) :
    declared_key_name key = some k.sai_key_name := by
  unfold get_sai_key_data at h
  unfold declared_key_name
  repeat' split at h
  all_goals simp_all
  all_goals (subst h; rfl)

theorem get_sai_key_data_ok_match_type {key : MatchField} {k : SaiKeyData}
    (h : get_sai_key_data key = .ok k) :
    resolved_match_type key = some k.match_type := by
  unfold get_sai_key_data at h
  repeat' split at h
  all_goals simp_all
  all_goals (subst h; rfl)

theorem mapExcept_singleton_ok {g : α → Except SaiGenError β} {x : α}
    {ys : List β} (h : mapExcept g [x] = .ok ys) :
    ∃ y, g x = .ok y ∧ ys = [y] := by
  obtain ⟨y, ys2, hy, hnil, rfl⟩ := mapExcept_cons_ok h
  rw [mapExcept_nil_ok hnil]
  exact ⟨y, hy, rfl⟩

theorem generate_sai_table_ok_inv {acts : List (Nat × SaiActionData)} {t : TableDef}
    {d : SaiTableData} (h : generate_sai_table acts t = .ok d) :
    ∃ tn nm keys ras,
      table_name_parts t = .ok (tn, nm) ∧
      mapExcept get_sai_key_data t.matchFields = .ok keys ∧
      mapExcept (lookup_action acts) t.actionRefs = .ok ras ∧
      d = classify_table nm (lastDotSegment tn) keys
        (ras.filter (fun a => a.name ≠ "NoAction")) := by
  unfold generate_sai_table at h
  cases hp : table_name_parts t with
  | error e => rw [hp] at h; exact absurd h (by simp)
  | ok parts =>
    rw [hp] at h
    cases hk : mapExcept get_sai_key_data t.matchFields with
    | error e => rw [hk] at h; exact absurd h (by simp)
    | ok keys =>
      rw [hk] at h
      cases hr : mapExcept (lookup_action acts) t.actionRefs with
      | error e => rw [hr] at h; exact absurd h (by simp)
      | ok ras =>
        rw [hr] at h
        cases h
        obtain ⟨tn, nm⟩ := parts
        exact ⟨tn, nm, keys, ras, rfl, rfl, rfl, rfl⟩

theorem classify_table_actions (nm base : String) (keys : List SaiKeyData)
    (as : List SaiActionData) : (classify_table nm base keys as).actions = as := by
  unfold classify_table
  repeat' split
  all_goals rfl

theorem classify_table_is_object_iff (nm base : String) (keys : List SaiKeyData)
    (as : List SaiActionData) :
    (classify_table nm base keys as).is_object = "true" ↔
      (is_intrinsic_id base keys = true ∨ keys.length > 5) := by
  unfold classify_table
  split
  · simp_all
  · split
    · simp_all
    · simp_all

theorem classify_table_entry {base : String} {keys : List SaiKeyData}
    (nm : String) (as : List SaiActionData)
    (h1 : ¬ is_intrinsic_id base keys = true) (h2 : ¬ keys.length > 5) :
    classify_table nm base keys as = ⟨nm ++ "_entry", keys, as, "false"⟩ := by
  simp [classify_table, h1, h2]

theorem classify_table_intrinsic {base : String} {keys : List SaiKeyData}
    (nm : String) (as : List SaiActionData) (h : is_intrinsic_id base keys = true) :
    classify_table nm base keys as = ⟨nm, [], as, "true"⟩ := by
  simp [classify_table, h]

theorem is_intrinsic_id_iff (base : String) (keys : List SaiKeyData) :
    is_intrinsic_id base keys = true ↔
      ∃ k, keys = [k] ∧ k.sai_key_name = base ++ "_id" := by
  unfold is_intrinsic_id
  cases keys with
  | nil => simp
  | cons k rest =>
    cases rest with
    | nil => simp
    | cons k2 rest2 => simp

theorem mapExcept_declared_names {fs : List MatchField} {ks : List SaiKeyData}
    (h : mapExcept get_sai_key_data fs = .ok ks) :
    fs.map declared_key_name = ks.map (fun k => some k.sai_key_name) := by
  induction fs generalizing ks with
  | nil => rw [mapExcept_nil_ok h]; rfl
  | cons f fs ih =>
    obtain ⟨k, ks2, hk, hks, rfl⟩ := mapExcept_cons_ok h
    simp [get_sai_key_data_ok_declared hk, ih hks]

/-- C2: for every positive bit-width `w`, scalar-mode key type resolution
returns boolean for `w = 1`; 8-bit unsigned for `2 ≤ w ≤ 8`; 16-bit
unsigned for `9 ≤ w ≤ 16`; the IP-address type for `w = 32` when "addr"
occurs in the field hint or "ip" occurs in the header hint; 32-bit
unsigned for `17 ≤ w ≤ 32` otherwise; the MAC-address type for `w = 48`
with an "addr"/"mac" hint; 64-bit unsigned for `33 ≤ w ≤ 64` otherwise;
and fails with `UnsupportedWidth` for every `w > 64`. -/
theorem claim_C2 (w : Nat) (hdr fld : String) (_hpos : 1 ≤ w) :
    (w = 1 → get_sai_key_type w hdr fld = .ok "bool") ∧
    (2 ≤ w → w ≤ 8 → get_sai_key_type w hdr fld = .ok "sai_uint8_t") ∧
    (9 ≤ w → w ≤ 16 → get_sai_key_type w hdr fld = .ok "sai_uint16_t") ∧
    (w = 32 → (strContains fld "addr" || strContains hdr "ip") = true →
      get_sai_key_type w hdr fld = .ok "sai_ip_address_t") ∧
    (17 ≤ w → w ≤ 32 →
      ¬ (w = 32 ∧ (strContains fld "addr" || strContains hdr "ip") = true) →
      get_sai_key_type w hdr fld = .ok "sai_uint32_t") ∧
    (w = 48 → (strContains fld "addr" || strContains hdr "mac") = true →
      get_sai_key_type w hdr fld = .ok "sai_mac_t") ∧
    (33 ≤ w → w ≤ 64 →
      ¬ (w = 48 ∧ (strContains fld "addr" || strContains hdr "mac") = true) →
      get_sai_key_type w hdr fld = .ok "sai_uint64_t") ∧
    (64 < w → get_sai_key_type w hdr fld = .error .unsupportedWidth) := by
  unfold get_sai_key_type
  refine ⟨?_, ?_, ?_, ?_, ?_, ?_, ?_, ?_⟩
  · intro h1
    rw [if_pos h1]
  · intro h2 h8
    rw [if_neg (by omega), if_pos h8]
  · intro h9 h16
    rw [if_neg (by omega), if_neg (by omega), if_pos h16]
  · intro h32 hh
    rw [if_neg (by omega), if_neg (by omega), if_neg (by omega), if_pos ⟨h32, hh⟩]
  · intro h17 h32 hn
    rw [if_neg (by omega), if_neg (by omega), if_neg (by omega), if_neg hn, if_pos h32]
  · intro h48 hh
    rw [if_neg (by omega), if_neg (by omega), if_neg (by omega),
      if_neg (by rintro ⟨h, -⟩; omega), if_neg (by omega), if_pos ⟨h48, hh⟩]
  · intro h33 h64 hn
    rw [if_neg (by omega), if_neg (by omega), if_neg (by omega),
      if_neg (by rintro ⟨h, -⟩; omega), if_neg (by omega), if_neg hn, if_pos h64]
  · intro hw
    rw [if_neg (by omega), if_neg (by omega), if_neg (by omega),
      if_neg (by rintro ⟨h, -⟩; omega), if_neg (by omega),
      if_neg (by rintro ⟨h, -⟩; omega), if_neg (by omega)]

/-- Witness for C2: concrete instances of several bands, including the
32-bit IP-address special case. -/
theorem claim_C2_witness :
    (1 : Nat) ≤ 32 ∧ get_sai_key_type 32 "ipv4" "dst" = .ok "sai_ip_address_t" :=
  ⟨by decide, (claim_C2 32 "ipv4" "dst" (by decide)).2.2.2.1 rfl (by decide)⟩

/-- C4 counterexample: in scalar mode a 32-bit width with no "addr"
field hint and no "ip" header hint resolves to 32-bit unsigned (not an
`UnsupportedWidth` failure), and a 48-bit width with no "addr"/"mac"
hint resolves to 64-bit unsigned. -/
theorem claim_C4_counterexample :
    get_sai_key_type 32 "hdr" "dst" ≠ .error .unsupportedWidth ∧
    get_sai_key_type 32 "hdr" "dst" = .ok "sai_uint32_t" ∧
    get_sai_key_type 48 "hdr" "dst" ≠ .error .unsupportedWidth ∧
    get_sai_key_type 48 "hdr" "dst" = .ok "sai_uint64_t" :=
  ⟨fun h => Except.noConfusion h, rfl, fun h => Except.noConfusion h, rfl⟩

/-- C4 amended: in scalar mode an unmatched 32-bit width resolves to
32-bit unsigned and an unmatched 48-bit width resolves to 64-bit
unsigned; `UnsupportedWidth` occurs exactly for the widths greater
than 64 (a width of at most 64 never produces it). -/
theorem claim_C4_amended (hdr fld : String) :
    ((strContains fld "addr" || strContains hdr "ip") = false →
      get_sai_key_type 32 hdr fld = .ok "sai_uint32_t") ∧
    ((strContains fld "addr" || strContains hdr "mac") = false →
      get_sai_key_type 48 hdr fld = .ok "sai_uint64_t") ∧
    (∀ w : Nat, get_sai_key_type w hdr fld = .error .unsupportedWidth ↔ 64 < w) := by
  refine ⟨?_, ?_, ?_⟩
  · intro hh
    unfold get_sai_key_type
    rw [if_neg (by omega), if_neg (by omega), if_neg (by omega),
      if_neg (by rintro ⟨-, hc⟩; simp [hh] at hc), if_pos (by omega)]
  · intro hh
    unfold get_sai_key_type
    rw [if_neg (by omega), if_neg (by omega), if_neg (by omega),
      if_neg (by rintro ⟨h, -⟩; omega), if_neg (by omega),
      if_neg (by rintro ⟨-, hc⟩; simp [hh] at hc), if_pos (by omega)]
  · intro w
    constructor
    · intro he
      unfold get_sai_key_type at he
      repeat' split at he
      all_goals first
        | omega
        | exact absurd he (by simp)
    · intro hw
      unfold get_sai_key_type
      rw [if_neg (by omega), if_neg (by omega), if_neg (by omega),
        if_neg (by rintro ⟨h, -⟩; omega), if_neg (by omega),
        if_neg (by rintro ⟨h, -⟩; omega), if_neg (by omega)]

/-- Witness for C4 amended: hint-free 32- and 48-bit widths resolve,
width 65 is the genuine failure, and width 64 cannot produce it. -/
theorem claim_C4_amended_witness :
    get_sai_key_type 32 "hdr" "dst" = .ok "sai_uint32_t" ∧
    get_sai_key_type 48 "hdr" "dst" = .ok "sai_uint64_t" ∧
    get_sai_key_type 65 "hdr" "dst" = .error .unsupportedWidth ∧
    ¬ get_sai_key_type 64 "hdr" "dst" = .error .unsupportedWidth :=
  ⟨(claim_C4_amended "hdr" "dst").1 (by decide),
   (claim_C4_amended "hdr" "dst").2.1 (by decide),
   ((claim_C4_amended "hdr" "dst").2.2 65).mpr (by decide),
   fun h =>
     absurd (((claim_C4_amended "hdr" "dst").2.2 64).mp h) (by decide)⟩

/-- C5: prefix-mode (lpm) resolution returns the IP-prefix type exactly
when the width is 32 and "addr" occurs in the field hint or "ip" occurs
in the header hint; every other combination fails with
`UnsupportedWidth`. -/
theorem claim_C5 (w : Nat) (hdr fld : String) :
    (get_sai_lpm_type w hdr fld = .ok "sai_ip_prefix_t" ↔
      w = 32 ∧ (strContains fld "addr" || strContains hdr "ip") = true) ∧
    (¬ (w = 32 ∧ (strContains fld "addr" || strContains hdr "ip") = true) →
      get_sai_lpm_type w hdr fld = .error .unsupportedWidth) := by
  unfold get_sai_lpm_type
  constructor
  · split
    · rename_i hc
      simp [hc]
    · rename_i hc
      constructor
      · intro h
        exact absurd h (by simp)
      · intro h
        exact absurd h hc
  · intro hn
    rw [if_neg hn]

/-- Witness for C5: width 32 with an "ip" header hint succeeds, width 24
fails. -/
theorem claim_C5_witness :
    get_sai_lpm_type 32 "ipv4" "dst" = .ok "sai_ip_prefix_t" ∧
    get_sai_lpm_type 24 "ipv4" "dst" = .error .unsupportedWidth :=
  ⟨(claim_C5 32 "ipv4" "dst").1.mpr (by decide),
   (claim_C5 24 "ipv4" "dst").2 (by decide)⟩

/-- C1: for every table that is processed (not excluded), the emitted
descriptor has `is_object = "true"` if and only if the table has exactly
one match field whose declared key name is the table name's last
dot-segment followed by `_id`, or more than five match fields; in every
other case `is_object = "false"` and the descriptor name is the
dot-replaced table name with an `_entry` suffix. -/
theorem claim_C1 (acts : List (Nat × SaiActionData)) (t : TableDef) (tn nm : String)
    (d : SaiTableData)
    (hparts : table_name_parts t = .ok (tn, nm))
    (hgen : generate_sai_table acts t = .ok d) :
    ((d.is_object = "true") ↔
      (t.matchFields.map declared_key_name = [some (lastDotSegment tn ++ "_id")] ∨
       t.matchFields.length > 5)) ∧
    (t.matchFields.map declared_key_name ≠ [some (lastDotSegment tn ++ "_id")] →
     ¬ t.matchFields.length > 5 →
     d.is_object = "false" ∧ d.name = nm ++ "_entry") := by
  obtain ⟨tn2, nm2, keys, ras, hp2, hk, hr, rfl⟩ := generate_sai_table_ok_inv hgen
  rw [hparts] at hp2
  cases hp2
  have hlen := mapExcept_ok_length hk
  have hdecl := mapExcept_declared_names hk
  have hint : is_intrinsic_id (lastDotSegment tn) keys = true ↔
      t.matchFields.map declared_key_name = [some (lastDotSegment tn ++ "_id")] := by
    rw [is_intrinsic_id_iff]
    constructor
    · rintro ⟨k, rfl, hk2⟩
      rw [hdecl]
      simp [hk2]
    · intro hmap
      rw [hdecl] at hmap
      cases keys with
      | nil => simp at hmap
      | cons k rest =>
        cases rest with
        | nil =>
          simp at hmap
          exact ⟨k, rfl, hmap⟩
        | cons k2 rest2 => simp at hmap
  have hlen5 : keys.length > 5 ↔ t.matchFields.length > 5 := by rw [hlen]
  constructor
  · rw [classify_table_is_object_iff, hint, hlen5]
  · intro h1 h2
    have hi : ¬ is_intrinsic_id (lastDotSegment tn) keys = true := by
      rw [hint]
      exact h1
    have h5 : ¬ keys.length > 5 := by
      rw [hlen5]
      exact h2
    rw [classify_table_entry _ _ hi h5]
    exact ⟨rfl, rfl⟩

/-- Witness for C1: the `ingress.port` fixture with single key
`port_id` yields an object descriptor, matching the intrinsic-id
condition. -/
theorem claim_C1_witness :
    ((⟨"port", [], [], "true"⟩ : SaiTableData).is_object = "true") ↔
      (portTable.matchFields.map declared_key_name =
        [some (lastDotSegment "port" ++ "_id")] ∨
       portTable.matchFields.length > 5) :=
  (claim_C1 [] portTable "port" "port" ⟨"port", [], [], "true"⟩ rfl rfl).1

/-- C3: a table whose only match field has declared key name equal to
the table's base name followed by `_id` is emitted with
`is_object = "true"` and an empty key list, regardless of the field's
match kind. -/
theorem claim_C3 (acts : List (Nat × SaiActionData)) (t : TableDef) (tn nm : String)
    (f : MatchField) (d : SaiTableData)
    (hparts : table_name_parts t = .ok (tn, nm))
    (hf : t.matchFields = [f])
    (hdn : declared_key_name f = some (lastDotSegment tn ++ "_id"))
    (hgen : generate_sai_table acts t = .ok d) :
    d.is_object = "true" ∧ d.keys = [] := by
  obtain ⟨tn2, nm2, keys, ras, hp2, hk, hr, rfl⟩ := generate_sai_table_ok_inv hgen
  rw [hparts] at hp2
  cases hp2
  rw [hf] at hk
  obtain ⟨k, hk1, rfl⟩ := mapExcept_singleton_ok hk
  have hd := get_sai_key_data_ok_declared hk1
  rw [hdn] at hd
  have hname : k.sai_key_name = lastDotSegment tn ++ "_id" := by
    injection hd with hh
    exact hh.symm
  have hint : is_intrinsic_id (lastDotSegment tn) [k] = true := by
    rw [is_intrinsic_id_iff]
    exact ⟨k, rfl, hname⟩
  rw [classify_table_intrinsic _ _ hint]
  exact ⟨rfl, rfl⟩

/-- Witness for C3: the `ingress.meter` fixture whose single
`meter_id` key has match kind `lpm` still classifies as an object with
no keys. -/
theorem claim_C3_witness :
    (⟨"meter", [], [], "true"⟩ : SaiTableData).is_object = "true" ∧
    (⟨"meter", [], [], "true"⟩ : SaiTableData).keys = [] :=
  claim_C3 [] meterTable "meter" "meter"
    ⟨"hdr.ipv4.dst_addr:meter_id", 32, some "lpm", none⟩
    ⟨"meter", [], [], "true"⟩ rfl rfl rfl rfl

theorem resolved_match_type_none_iff (key : MatchField) :
    resolved_match_type key = none ↔
      key.otherMatchType = none ∧ key.matchType = none := by
  unfold resolved_match_type
  cases ho : key.otherMatchType with
  | some s => simp
  | none =>
    cases hmt : key.matchType with
    | some s2 => simp
    | none => simp

/-- C8: for a match field of well-formed name shape, key resolution
fails with `InvalidMatchTag` exactly when the field carries neither a
`matchType` nor an `otherMatchType` tag, and fails with
`UnsupportedMatchKind` exactly when a tag is present but its lowercased
value is none of "exact", "lpm", "list", "range_list". -/
theorem claim_C8 (key : MatchField) (h : name_shape_ok key = true) :
    ((get_sai_key_data key = .error .invalidMatchTag) ↔
      (key.otherMatchType = none ∧ key.matchType = none)) ∧
    ((get_sai_key_data key = .error .unsupportedMatchKind) ↔
      (∃ mt, resolved_match_type key = some mt ∧
        mt ≠ "exact" ∧ mt ≠ "lpm" ∧ mt ≠ "list" ∧ mt ≠ "range_list")) := by
  unfold name_shape_ok at h
  cases hs : charSplit ':' key.name.toList with
  | nil => rw [hs] at h; simp at h
  | cons full rest =>
    cases rest with
    | nil => rw [hs] at h; simp at h
    | cons dn rest2 =>
      cases rest2 with
      | cons x rest3 => rw [hs] at h; simp at h
      | nil =>
        rw [hs] at h
        cases hh : header_field_hints full with
        | error e => simp [hh] at h
        | ok hints =>
          unfold get_sai_key_data
          simp only [hs, hh]
          cases hm : resolved_match_type key with
          | none =>
            obtain ⟨ho, hmt⟩ := (resolved_match_type_none_iff key).mp hm
            constructor
            · simp [ho, hmt]
            · simp
          | some mt =>
            have hnn : ¬ (key.otherMatchType = none ∧ key.matchType = none) := by
              intro hb
              rw [(resolved_match_type_none_iff key).mpr hb] at hm
              simp at hm
            by_cases he1 : mt = "exact"
            · subst he1
              cases hr : get_sai_key_type key.bitwidth hints.1 hints.2 with
              | error e =>
                have he := get_sai_key_type_error_eq hr
                subst he
                exact ⟨by simp [hr, hnn], by simp [hr]⟩
              | ok t => exact ⟨by simp [hr, hnn], by simp [hr]⟩
            · by_cases he2 : mt = "lpm"
              · subst he2
                cases hr : get_sai_lpm_type key.bitwidth hints.1 hints.2 with
                | error e =>
                  have he := get_sai_lpm_type_error_eq hr
                  subst he
                  exact ⟨by simp [hr, hnn], by simp [hr]⟩
                | ok t => exact ⟨by simp [hr, hnn], by simp [hr]⟩
              · by_cases he3 : mt = "list"
                · subst he3
                  cases hr : get_sai_list_type key.bitwidth hints.1 hints.2 with
                  | error e =>
                    have he := get_sai_list_type_error_eq hr
                    subst he
                    exact ⟨by simp [hr, hnn], by simp [hr]⟩
                  | ok t => exact ⟨by simp [hr, hnn], by simp [hr]⟩
                · by_cases he4 : mt = "range_list"
                  · subst he4
                    cases hr : get_sai_range_list_type key.bitwidth hints.1 hints.2 with
                    | error e =>
                      have he := get_sai_range_list_type_error_eq hr
                      subst he
                      exact ⟨by simp [hr, hnn], by simp [hr]⟩
                    | ok t => exact ⟨by simp [hr, hnn], by simp [hr]⟩
                  · exact ⟨by simp [he1, he2, he3, he4, hnn],
                      by simp [he1, he2, he3, he4]⟩

/-- Witness for C8: a tagless field with well-formed name fails with
`InvalidMatchTag`. -/
theorem claim_C8_witness :
    (get_sai_key_data ⟨"h.f:k", 8, none, none⟩ = .error .invalidMatchTag ↔
      (⟨"h.f:k", 8, none, none⟩ : MatchField).otherMatchType = none ∧
      (⟨"h.f:k", 8, none, none⟩ : MatchField).matchType = none) :=
  (claim_C8 ⟨"h.f:k", 8, none, none⟩ (by decide)).1

theorem generate_sai_table_actions_eq {acts : List (Nat × SaiActionData)}
    {t : TableDef} {d : SaiTableData} (h : generate_sai_table acts t = .ok d) :
    ∃ ras, mapExcept (lookup_action acts) t.actionRefs = .ok ras ∧
      d.actions = ras.filter (fun a => a.name ≠ "NoAction") := by
  obtain ⟨tn, nm, keys, ras, hp, hk, hr, rfl⟩ := generate_sai_table_ok_inv h
  exact ⟨ras, hr,
    classify_table_actions nm (lastDotSegment tn) keys
      (ras.filter (fun a => a.name ≠ "NoAction"))⟩

theorem process_tables_mem {acts : List (Nat × SaiActionData)} {ignore : List String} :
    ∀ {ts : List TableDef} {ds : List SaiTableData},
      process_tables acts ignore ts = .ok ds →
      ∀ d ∈ ds, ∃ t ∈ ts, generate_sai_table acts t = .ok d := by
  intro ts
  induction ts with
  | nil =>
    intro ds h d hd
    unfold process_tables at h
    cases h
    simp at hd
  | cons t ts ih =>
    intro ds h d hd
    unfold process_tables at h
    cases hp : table_name_parts t with
    | error e => rw [hp] at h; exact absurd h (by simp)
    | ok parts =>
      simp only [hp] at h
      by_cases hig : ignore.contains parts.2
      · rw [if_pos hig] at h
        obtain ⟨t2, ht2, hgen⟩ := ih h d hd
        exact ⟨t2, List.mem_cons_of_mem _ ht2, hgen⟩
      · rw [if_neg hig] at h
        cases hg : generate_sai_table acts t with
        | error e => rw [hg] at h; exact absurd h (by simp)
        | ok d2 =>
          rw [hg] at h
          cases hrest : process_tables acts ignore ts with
          | error e => rw [hrest] at h; exact absurd h (by simp)
          | ok ds2 =>
            rw [hrest] at h
            cases h
            rcases List.mem_cons.mp hd with rfl | hd2
            · exact ⟨t, List.mem_cons_self t ts, hg⟩
            · obtain ⟨t2, ht2, hgen⟩ := ih hrest d hd2
              exact ⟨t2, List.mem_cons_of_mem _ ht2, hgen⟩

theorem mapExcept_cons_intro {g : α → Except SaiGenError β} {x : α} {y : β}
    {xs : List α} {ys : List β} (h1 : g x = .ok y)
    (h2 : mapExcept g xs = .ok ys) :
    mapExcept g (x :: xs) = .ok (y :: ys) := by
  unfold mapExcept
  rw [h1, h2]

theorem process_tables_filter {acts : List (Nat × SaiActionData)} {ignore : List String} :
    ∀ {ts : List TableDef} {ds : List SaiTableData},
      process_tables acts ignore ts = .ok ds →
      mapExcept (generate_sai_table acts)
        (ts.filter (fun t => ! ignore.contains (derived_name t))) = .ok ds := by
  intro ts
  induction ts with
  | nil =>
    intro ds h
    unfold process_tables at h
    cases h
    rfl
  | cons t ts ih =>
    intro ds h
    unfold process_tables at h
    cases hp : table_name_parts t with
    | error e => rw [hp] at h; exact absurd h (by simp)
    | ok parts =>
      simp only [hp] at h
      have hder : derived_name t = parts.2 := by
        unfold derived_name
        rw [hp]
      by_cases hig : ignore.contains parts.2
      · rw [if_pos hig] at h
        rw [List.filter_cons, if_neg (by simp [hder]; simpa using hig)]
        exact ih h
      · rw [if_neg hig] at h
        cases hg : generate_sai_table acts t with
        | error e => rw [hg] at h; exact absurd h (by simp)
        | ok d =>
          rw [hg] at h
          cases hrest : process_tables acts ignore ts with
          | error e => rw [hrest] at h; exact absurd h (by simp)
          | ok ds2 =>
            rw [hrest] at h
            cases h
            rw [List.filter_cons, if_pos (by simp [hder]; simpa using hig)]
            exact mapExcept_cons_intro hg (ih hrest)

/-- C6: the `NoAction` sentinel never appears in any emitted table's
action list, even when referenced, and (second conjunct) a table's
emitted action list is exactly the resolved reference list with
`NoAction` filtered out, preserving reference order. -/
theorem claim_C6 :
    (∀ (program : Program) (ignore : List String) (api : SaiApi),
      generate_sai_api program ignore = .ok api →
      ∀ d ∈ api.tables, ∀ a ∈ d.actions, a.name ≠ "NoAction") ∧
    (∀ (acts : List (Nat × SaiActionData)) (t : TableDef) (d : SaiTableData)
      (ras : List SaiActionData),
      generate_sai_table acts t = .ok d →
      mapExcept (lookup_action acts) t.actionRefs = .ok ras →
      d.actions = ras.filter (fun a => a.name ≠ "NoAction")) := by
  constructor
  · intro program ignore api hapi d hd a ha
    unfold generate_sai_api at hapi
    cases he : extract_action_data program with
    | error e => rw [he] at hapi; exact absurd hapi (by simp)
    | ok acts =>
      simp only [he] at hapi
      cases hp : process_tables acts ignore program.tables with
      | error e => rw [hp] at hapi; exact absurd hapi (by simp)
      | ok ts =>
        rw [hp] at hapi
        cases hapi
        obtain ⟨t, ht, hgen⟩ := process_tables_mem hp d hd
        obtain ⟨ras, hr, hact⟩ := generate_sai_table_actions_eq hgen
        rw [hact] at ha
        simpa using (List.mem_filter.mp ha).2
  · intro acts t d ras hgen hr
    obtain ⟨ras2, hr2, hact⟩ := generate_sai_table_actions_eq hgen
    rw [hr] at hr2
    cases hr2
    exact hact

/-- Witness for C6: in the fixture referencing both `NoAction` and
`drop`, the emitted action is not `NoAction`. -/
theorem claim_C6_witness :
    (⟨2, "drop", []⟩ : SaiActionData).name ≠ "NoAction" :=
  claim_C6.1 noActionProgram []
    ⟨[⟨"t1_entry", [⟨"k", "exact", .keyType "sai_uint8_t"⟩],
      [⟨2, "drop", []⟩], "false"⟩]⟩ rfl
    ⟨"t1_entry", [⟨"k", "exact", .keyType "sai_uint8_t"⟩],
      [⟨2, "drop", []⟩], "false"⟩ (by simp)
    ⟨2, "drop", []⟩ (by simp)

/-- C7: the final model's table-descriptor sequence consists of exactly
the input tables whose derived dot-replaced name is not in the exclusion
set, classified in input order with no reordering and no deduplication:
running the per-table classifier over the filtered input sequence
reproduces the emitted sequence. -/
theorem claim_C7 (program : Program) (ignore : List String) (api : SaiApi)
    (h : generate_sai_api program ignore = .ok api) :
    ∃ acts, extract_action_data program = .ok acts ∧
      mapExcept (generate_sai_table acts)
        (program.tables.filter (fun t => ! ignore.contains (derived_name t))) =
        .ok api.tables := by
  unfold generate_sai_api at h
  cases he : extract_action_data program with
  | error e => rw [he] at h; exact absurd h (by simp)
  | ok acts =>
    simp only [he] at h
    cases hp : process_tables acts ignore program.tables with
    | error e => rw [hp] at h; exact absurd h (by simp)
    | ok ts =>
      rw [hp] at h
      cases h
      exact ⟨acts, rfl, process_tables_filter hp⟩

/-- Witness for C7: the fixture with an excluded `skip_me` table and a
kept `keep` table. -/
theorem claim_C7_witness :
    ∃ acts, extract_action_data exclusionProgram = .ok acts ∧
      mapExcept (generate_sai_table acts)
        (exclusionProgram.tables.filter
          (fun t => ! ["skip_me"].contains (derived_name t))) =
        .ok (⟨[⟨"keep_entry", [], [], "false"⟩]⟩ : SaiApi).tables :=
  claim_C7 exclusionProgram ["skip_me"] ⟨[⟨"keep_entry", [], [], "false"⟩]⟩ rfl

/-- C9: the schema assembly is a deterministic pure function of the
program document and the exclusion set: two runs on identical inputs
produce identical final models. -/
theorem claim_C9 (p1 p2 : Program) (i1 i2 : List String)
    (hp : p1 = p2) (hi : i1 = i2) :
    generate_sai_api p1 i1 = generate_sai_api p2 i2 := by
  rw [hp, hi]

/-- Witness for C9: two runs on the exclusion fixture agree. -/
theorem claim_C9_witness :
    generate_sai_api exclusionProgram ["skip_me"] =
      generate_sai_api exclusionProgram ["skip_me"] :=
  claim_C9 exclusionProgram exclusionProgram ["skip_me"] ["skip_me"] rfl rfl

/-- C10: when a match field carries both tags, the resolved match kind
comes from `otherMatchType` (lowercased); `matchType` is ignored, so key
resolution is invariant under changing it. -/
theorem claim_C10 (key : MatchField) (s : String)
    (h : key.otherMatchType = some s) (mt1 mt2 : Option String) :
    (get_sai_key_data { key with matchType := mt1 } =
      get_sai_key_data { key with matchType := mt2 }) ∧
    (∀ k, get_sai_key_data key = .ok k → k.match_type = pyLower s) := by
  have hres : ∀ mt : Option String,
      resolved_match_type { key with matchType := mt } = some (pyLower s) := by
    intro mt
    unfold resolved_match_type
    simp [h]
  constructor
  · unfold get_sai_key_data
    simp only [hres]
  · intro k hk
    have hm := get_sai_key_data_ok_match_type hk
    have hres2 : resolved_match_type key = some (pyLower s) := by
      unfold resolved_match_type
      rw [h]
    rw [hres2] at hm
    injection hm with hm2
    exact hm2.symm

/-- Witness for C10: the two-tag fixture resolves identically whatever
its `matchType` is set to. -/
theorem claim_C10_witness :
    get_sai_key_data { bothTagsField with matchType := some "exact" } =
      get_sai_key_data { bothTagsField with matchType := some "range_list" } :=
  (claim_C10 bothTagsField "LPM" rfl (some "exact") (some "range_list")).1

end SaiApiGen
